import Mathlib

/-!
Shallow embedding of `HugeCTR/include/gpu_resource.hpp`: the `GPUResource`
per-accelerator resource bundle and the `GPUResourceGroup` container with its
NCCL/MPI bootstrap protocol.  Native CUDA/NCCL/MPI calls are modelled as an
event trace; fallible validation is modelled with `Except`.  Handles, streams
and communicator slots are modelled as natural-number identities (pointers as
base-address + offset, with `new[]` returning a non-null, i.e. positive,
address).
-/

namespace HugeCTR

/-- Modelled from the spec: the error taxonomy of `common.hpp` (not under
`src/`); the only variant this translation unit raises is the
invalid-configuration error `WrongInput` (`CK_THROW_(Error_t::WrongInput, ...)`). -/
inductive Error_t where
  | WrongInput
deriving DecidableEq, Repr

/-- Modelled from the spec: a typed error thrown by the `CK_*_THROW_` macros of
`common.hpp` (not under `src/`): an error kind plus a descriptive message. -/
structure HCError where
  t : Error_t
  msg : String
deriving DecidableEq, Repr

/-- One observable native-API call made by the code under `src/`
(CUDA / cuBLAS / cuRAND / cuDNN / NCCL / MPI), recorded in program order. -/
inductive Event where
  | cudaGetDeviceCount : Event
  | ncclGetUniqueId (token : Nat) : Event
  | mpiBcast (root : Nat) (token : Nat) : Event
  | ncclGroupStart : Event
  | cudaSetDevice (dev : Int) : Event
  | ncclCommInitRank (slot : Nat) (nranks : Nat) (token : Nat) (rank : Int) : Event
  | ncclCommInitAll (ndev : Nat) (devs : List Int) : Event
  | ncclGroupEnd : Event
  | cublasCreate (dev : Int) : Event
  | curandCreateGenerator (dev : Int) : Event
  | cudnnCreate (dev : Int) : Event
  | cudaStreamCreate (dev : Int) (sid : Nat) : Event
  | cublasDestroy : Event
  | curandDestroyGenerator : Event
  | cudnnDestroy : Event
  | cudaStreamDestroy (sid : Nat) : Event
  | ncclCommDestroy (slot : Nat) : Event
deriving DecidableEq, Repr

/-- Holds on the calls that create a per-device native resource
(handle or stream) inside the `GPUResource` constructor. -/
def Event.isResourceCreate : Event → Bool
  | .cublasCreate _ => true
  | .curandCreateGenerator _ => true
  | .cudnnCreate _ => true
  | .cudaStreamCreate _ _ => true
  | _ => false

/-- Holds on the calls that initialize a communicator slot
(`ncclCommInitRank` / `ncclCommInitAll`). -/
def Event.isCommInit : Event → Bool
  | .ncclCommInitRank _ _ _ _ => true
  | .ncclCommInitAll _ _ => true
  | _ => false

/-- Holds on any call that creates a native resource: a communicator,
a library handle, or a stream. -/
def Event.isNativeCreate (e : Event) : Bool :=
  e.isResourceCreate || e.isCommInit

/-- Modelled from the spec: the `DeviceMap` interface of `device_map.hpp`
(not under `src/`, an external collaborator per the spec): the ordered local
accelerator identifiers, the local-device-id → global-index function
(`get_global_id`), the total accelerator count across all processes
(`size()`), and the cooperating-process count (`num_nodes()`). -/
structure DeviceMap where
  device_list : List Int
  global_id : Int → Int
  size : Nat
  num_nodes : Nat

/-- Modelled from the spec: the ambient native environment the constructor
queries — the host's visible accelerator count (`cudaGetDeviceCount`), the MPI
rank/size of this process, the identity token `ncclGetUniqueId` would generate
on rank 0 (`genToken`) and the token a non-root rank receives from the
broadcast (`rootToken`), the heap address offset for the communicator-array
allocation (C++ `new[]` never returns null, so the array's base address is
`allocBase + 1 > 0`), and the base identity for freshly created streams and
handles. -/
structure Env where
  dev_count : Int
  mpi_rank : Nat
  mpi_size : Nat
  genToken : Nat
  rootToken : Nat
  allocBase : Nat
  streamBase : Nat

/-- Embeds `GPUResource` (gpu_resource.hpp, lines 39–91): per-accelerator handle
bundle.  Streams and handles are modelled by their numeric identities;
`comm_` is the address of this device's communicator slot
(`comms_.get() + i` in the group constructor). -/
structure GPUResource where
  stream_ : Nat
  data_copy_stream_ : Nat × Nat
  cublas_handle_ : Nat
  curand_generator_ : Nat
  cudnn_handle_ : Nat
  device_id_ : Int
  comm_ : Nat
deriving DecidableEq, Repr

/-- The `GPUResource` constructor (lines 53–62): under the device context of
`device_id`, create the cuBLAS handle, the cuRAND generator, the cuDNN handle,
the compute stream, and the two data-copy streams, in that order.  `base` is
the first fresh native-handle identity; the six acquisitions receive
`base .. base + 5` in creation order. -/
def GPUResource.construct (base : Nat) (device_id : Int) (comm : Nat) :
    GPUResource × List Event :=
  (⟨base + 3, (base + 4, base + 5), base, base + 1, base + 2, device_id, comm⟩,
   [Event.cublasCreate device_id, Event.curandCreateGenerator device_id,
    Event.cudnnCreate device_id,
    Event.cudaStreamCreate device_id (base + 3),
    Event.cudaStreamCreate device_id (base + 4),
    Event.cudaStreamCreate device_id (base + 5)])

/-- Embeds `GPUResource::get_device_id` (line 84). -/
def GPUResource.get_device_id (r : GPUResource) : Int := r.device_id_

/-- Embeds `GPUResource::get_stream` (line 85). -/
def GPUResource.get_stream (r : GPUResource) : Nat := r.stream_

/-- Embeds `GPUResource::get_data_copy_stream` (line 86): the source reads
`data_copy_stream_[0]` whatever the `id` argument is. -/
def GPUResource.get_data_copy_stream (r : GPUResource) (_id : Int) : Nat :=
  r.data_copy_stream_.1

/-- Embeds `GPUResource::get_nccl_ptr` (line 90): the stored communicator-slot
address. -/
def GPUResource.get_nccl_ptr (r : GPUResource) : Nat := r.comm_

/-- Modelled from the spec: which teardown calls fail in a given run — the
native destroy functions return error statuses turned into typed exceptions by
the `CK_*_THROW_` macros of `common.hpp` (not under `src/`).  `none` means the
call succeeds; `some m` means it fails with message `m`. -/
structure DtorEnv where
  cublasFail : Option String
  curandFail : Option String
  cudnnFail : Option String
  streamFail : Option String
  copyStreamFail0 : Option String
  copyStreamFail1 : Option String
  ncclFail : Nat → Option String

/-- One teardown call: the native call is issued (its event is recorded), and
if the environment makes it fail the enclosing `CK_*_THROW_` macro throws. -/
def tearStep (acc : List Event) (ev : Event) (fail : Option String) :
    Except (List Event × String) (List Event) :=
  match fail with
  | none => Except.ok (acc ++ [ev])
  | some m => Except.error (acc ++ [ev], m)

/-- The body of `~GPUResource` before the catch clause (lines 72–78): destroy
the cuBLAS handle, the cuRAND generator, the cuDNN handle, the compute stream,
and the two data-copy streams, in that order, aborting at the first failure. -/
def GPUResource.destructorRaw (env : DtorEnv) (r : GPUResource) :
    Except (List Event × String) (List Event) := do
  let a1 ← tearStep [] Event.cublasDestroy env.cublasFail
  let a2 ← tearStep a1 Event.curandDestroyGenerator env.curandFail
  let a3 ← tearStep a2 Event.cudnnDestroy env.cudnnFail
  let a4 ← tearStep a3 (Event.cudaStreamDestroy r.stream_) env.streamFail
  let a5 ← tearStep a4 (Event.cudaStreamDestroy r.data_copy_stream_.1) env.copyStreamFail0
  tearStep a5 (Event.cudaStreamDestroy r.data_copy_stream_.2) env.copyStreamFail1

/-- Embeds `~GPUResource` (lines 70–83): the body runs inside `try { ... } catch
(const std::runtime_error& rt_err) { std::cerr << rt_err.what(); }`, so a
thrown teardown error is converted into a logged message and destruction
completes normally.  The outer `Except` is the propagation boundary to the
caller; the second component of the result is the list of messages printed to
`std::cerr`. -/
def GPUResource.destructor (env : DtorEnv) (r : GPUResource) :
    Except String (List Event × List String) :=
  match GPUResource.destructorRaw env r with
  | .ok evs => .ok (evs, [])
  | .error (evs, m) => .ok (evs, [m])

/-- Embeds `GPUResourceGroup` (lines 99–204): the communicator array (modelled as the
per-slot initialized flags plus `commsBase`, the array's base address), the
shared device map, and the owned `GPUResource` vector.  The worker thread pool
is an external collaborator and is not modelled. -/
structure GPUResourceGroup where
  comms_ : List Bool
  commsBase : Nat
  device_map_ : DeviceMap
  gpu_resources_ : List GPUResource

/-- Embeds `GPUResourceGroup::size` (lines 174–177): the device map's local device
count (the commented-out alternative `gpu_resources_.size()` is not used). -/
def GPUResourceGroup.size (g : GPUResourceGroup) : Nat :=
  g.device_map_.device_list.length

/-- Embeds `GPUResourceGroup::empty` (line 178). -/
def GPUResourceGroup.empty (g : GPUResourceGroup) : Bool :=
  g.size == 0

/-- Embeds `GPUResourceGroup::get_device_list` (line 191). -/
def GPUResourceGroup.get_device_list (g : GPUResourceGroup) : List Int :=
  g.device_map_.device_list

/-- Embeds `GPUResourceGroup::get_total_gpu_count` (line 201): `device_map_->size()`. -/
def GPUResourceGroup.get_total_gpu_count (g : GPUResourceGroup) : Nat :=
  g.device_map_.size

/-- Embeds `GPUResourceGroup::get_node_count` (line 202): `device_map_->num_nodes()`. -/
def GPUResourceGroup.get_node_count (g : GPUResourceGroup) : Nat :=
  g.device_map_.num_nodes

/-- Embeds `GPUResourceGroup::operator[]` (lines 171–173): `gpu_resources_[idx]` with
no bounds check — `std::vector::operator[]` out of range is undefined, so the
total embedding returns `none` outside `[0, gpu_resources_.size())`. -/
def GPUResourceGroup.getResource (g : GPUResourceGroup) (idx : Int) :
    Option GPUResource :=
  if h : 0 ≤ idx ∧ idx.toNat < g.gpu_resources_.length then
    some (g.gpu_resources_.get ⟨idx.toNat, h.2⟩)
  else none

/-- The communicator bootstrap (lines 142–161), after
`comms_.reset(new ncclComm_t[local_gpu_count]())`.  Under `ENABLE_MPI`
(`enableMPI = true`): rank 0 generates the unique id, `MPI_Bcast` distributes
it from root 0, then one `ncclGroupStart`/`ncclGroupEnd` pair brackets, for
each local index `i`, `cudaSetDevice(device_list[i])` and
`ncclCommInitRank(comms_.get() + i, total, nid, get_global_id(device_list[i]))`.
The rank-count argument is modelled from the spec as
`get_total_gpu_count() = device_map_->size()`, following the commented-out
declaration `// int total_gpu_count = get_total_gpu_count();` at line 139 that
line 155 still refers to.  Without MPI: a single
`ncclCommInitAll(comms_.get(), device_list.size(), device_list.data())`.
Either way every slot ends up initialized (`true`). -/
def bootstrapComms (enableMPI : Bool) (env : Env) (dm : DeviceMap) :
    List Bool × List Event :=
  let device_list := dm.device_list
  let n := device_list.length
  if enableMPI then
    let nid := if env.mpi_rank = 0 then env.genToken else env.rootToken
    (List.replicate n true,
     (if env.mpi_rank = 0 then [Event.ncclGetUniqueId env.genToken] else [])
       ++ [Event.mpiBcast 0 nid, Event.ncclGroupStart]
       ++ (List.range n).flatMap (fun i =>
            [Event.cudaSetDevice (device_list.getD i 0),
             Event.ncclCommInitRank i dm.size nid
               (dm.global_id (device_list.getD i 0))])
       ++ [Event.ncclGroupEnd])
  else
    (List.replicate n true, [Event.ncclCommInitAll n device_list])

/-- The resource-construction loop (lines 163–165): for each local index `i`,
`gpu_resources_.emplace_back(new GPUResource(device_list[i], comms_.get() + i))`.
Resource `i` draws its six fresh handle identities from
`env.streamBase + 6 * i`. -/
def buildResources (env : Env) (device_list : List Int) (commsBase : Nat) :
    List GPUResource × List Event :=
  ((List.range device_list.length).map fun i =>
      (GPUResource.construct (env.streamBase + 6 * i) (device_list.getD i 0)
        (commsBase + i)).1,
   (List.range device_list.length).flatMap fun i =>
      (GPUResource.construct (env.streamBase + 6 * i) (device_list.getD i 0)
        (commsBase + i)).2)

/-- The `GPUResourceGroup` constructor (lines 109–166).  In order:
reject an empty `device_list` (`"Empty device_list"`); the defensive
cross-check `local_gpu_count != size()` where `size()` is
`device_map_->get_device_list().size()`; `cudaGetDeviceCount`, then reject the
first listed device with `dev >= dev_count` (`"Invalid device id: " + dev`);
the repeated cross-check `device_map->get_device_list().size() !=
local_gpu_count`; then allocate the communicator array (base address
`env.allocBase + 1`, non-null), run the bootstrap, and construct one
`GPUResource` per local device wired to `comms_.get() + i`.  The result is the
constructed state (or the thrown error) paired with the native-call trace. -/
def GPUResourceGroup.construct (enableMPI : Bool) (env : Env) (dm : DeviceMap) :
    Except HCError GPUResourceGroup × List Event :=
  let device_list := dm.device_list
  let local_gpu_count := device_list.length
  if local_gpu_count = 0 then
    (.error ⟨.WrongInput, "Empty device_list"⟩, [])
  else if local_gpu_count ≠ dm.device_list.length then
    (.error ⟨.WrongInput, "local_gpu_count != size()"⟩, [])
  else
    match device_list.find? (fun dev => decide (env.dev_count ≤ dev)) with
    | some dev =>
      (.error ⟨.WrongInput, "Invalid device id: " ++ toString dev⟩,
       [Event.cudaGetDeviceCount])
    | none =>
      if dm.device_list.length ≠ local_gpu_count then
        (.error ⟨.WrongInput, "device_map->get_device_list().size() != local_gpu_count"⟩,
         [Event.cudaGetDeviceCount])
      else
        let commsBase := env.allocBase + 1
        (.ok ⟨(bootstrapComms enableMPI env dm).1, commsBase, dm,
              (buildResources env device_list commsBase).1⟩,
         Event.cudaGetDeviceCount ::
           ((bootstrapComms enableMPI env dm).2
             ++ (buildResources env device_list commsBase).2))

/-- The communicator-destruction loop of `~GPUResourceGroup` (lines 182–184):
`ncclCommDestroy(comms_[i])` for each index, aborting at the first failure. -/
def destroyCommsLoop (env : DtorEnv) (idxs : List Nat) (acc : List Event) :
    Except (List Event × String) (List Event) :=
  match idxs with
  | [] => .ok acc
  | i :: rest =>
    match env.ncclFail i with
    | none => destroyCommsLoop env rest (acc ++ [Event.ncclCommDestroy i])
    | some m => .error (acc ++ [Event.ncclCommDestroy i], m)

/-- The body of `~GPUResourceGroup` before the catch clause (lines 181–185):
only when `gpu_resources_.size() > 1`, destroy every communicator slot. -/
def GPUResourceGroup.destructorRaw (env : DtorEnv) (g : GPUResourceGroup) :
    Except (List Event × String) (List Event) :=
  if 1 < g.gpu_resources_.length then
    destroyCommsLoop env (List.range g.gpu_resources_.length) []
  else
    .ok []

/-- Embeds `~GPUResourceGroup` (lines 179–189): the body runs inside a
`try { ... } catch (const std::runtime_error&)` that logs to `std::cerr` and
swallows the error, so destruction always completes normally.  (The
`GPUResource` members are destroyed afterwards by their own destructors,
each likewise non-throwing.) -/
def GPUResourceGroup.destructor (env : DtorEnv) (g : GPUResourceGroup) :
    Except String (List Event × List String) :=
  match GPUResourceGroup.destructorRaw env g with
  | .ok evs => .ok (evs, [])
  | .error (evs, m) => .ok (evs, [m])

/-! ### Helper lemmas -/

/-- On a nonempty device list whose every entry is below the host's visible
device count, the constructor takes its success path: the explicit equation
for the produced state and trace. -/
theorem construct_ok (enableMPI : Bool) (env : Env) (dm : DeviceMap)
    (hne : dm.device_list ≠ [])
    (hvalid : ∀ dev ∈ dm.device_list, dev < env.dev_count) :
    GPUResourceGroup.construct enableMPI env dm =
      (.ok ⟨(bootstrapComms enableMPI env dm).1, env.allocBase + 1, dm,
            (buildResources env dm.device_list (env.allocBase + 1)).1⟩,
       Event.cudaGetDeviceCount ::
         ((bootstrapComms enableMPI env dm).2
           ++ (buildResources env dm.device_list (env.allocBase + 1)).2)) := by
  have h0 : ¬ dm.device_list.length = 0 := by
    simpa [List.length_eq_zero] using hne
  have hf : dm.device_list.find? (fun dev => decide (env.dev_count ≤ dev)) = none := by
    rw [List.find?_eq_none]
    intro x hx
    simpa using not_le.mpr (hvalid x hx)
  simp [GPUResourceGroup.construct, h0, hf]

/-- The resource loop builds one `GPUResource` per local device. -/
theorem buildResources_length (env : Env) (dl : List Int) (base : Nat) :
    ((buildResources env dl base).1).length = dl.length := by
  simp [buildResources]

/-- The `i`-th built resource is the one constructed from `device_list[i]` and
communicator slot address `base + i`. -/
theorem buildResources_get (env : Env) (dl : List Int) (base : Nat)
    (i : Nat) (h : i < ((buildResources env dl base).1).length) :
    (buildResources env dl base).1.get ⟨i, h⟩ =
      (GPUResource.construct (env.streamBase + 6 * i) (dl.getD i 0) (base + i)).1 := by
  simp [buildResources]

/-- Every event of the resource-construction loop is a per-device resource
creation (handle or stream). -/
theorem buildResources_events_create (env : Env) (dl : List Int) (base : Nat) :
    ∀ e ∈ (buildResources env dl base).2, e.isResourceCreate = true := by
  intro e he
  simp [buildResources, GPUResource.construct, List.mem_flatMap] at he
  obtain ⟨i, _, hmem⟩ := he
  rcases hmem with h | h | h | h | h | h <;> subst h <;> rfl

/-- A handle/stream creation event is not a communicator initialization. -/
theorem isCommInit_eq_false_of_isResourceCreate (e : Event)
    (h : e.isResourceCreate = true) : e.isCommInit = false := by
  cases e <;> simp_all [Event.isResourceCreate, Event.isCommInit]

/-- No event of the bootstrap phase creates a per-device handle or stream. -/
theorem bootstrapComms_events_not_create (enableMPI : Bool) (env : Env) (dm : DeviceMap) :
    ∀ e ∈ (bootstrapComms enableMPI env dm).2, e.isResourceCreate = false := by
  intro e he
  cases enableMPI with
  | false =>
    simp [bootstrapComms] at he
    subst he; rfl
  | true =>
    by_cases hr : env.mpi_rank = 0
    · simp [bootstrapComms, hr, List.mem_flatMap] at he
      rcases he with h | h | h | ⟨i, _, h | h⟩ | h <;> subst h <;> rfl
    · simp [bootstrapComms, hr, List.mem_flatMap] at he
      rcases he with h | h | ⟨i, _, h | h⟩ | h <;> subst h <;> rfl

/-- A string starting with `"Invalid device id: "` differs from any string
whose first character is not `'I'`. -/
theorem invalid_id_msg_ne (s t : String) (ht : t.data.head? ≠ some 'I') :
    "Invalid device id: " ++ s ≠ t := by
  intro h
  apply ht
  have h2 := congrArg String.data h
  rw [String.data_append] at h2
  have h3 := congrArg List.head? h2
  rw [List.head?_append] at h3
  rw [← h3]
  rfl

/-- The spec's demonstration scenario: local accelerators `[0, 1]`, identity
global numbering, two accelerators in total, a single process. -/
def dmDemo : DeviceMap := ⟨[0, 1], fun d => d, 2, 1⟩

/-- A host with four visible accelerators, rank 0 of a single process. -/
def envDemo : Env := ⟨4, 0, 1, 7, 7, 0, 0⟩

/-! ### Claims -/

/-- C1: for every valid device map with `N ≥ 1` locally listed accelerators,
construction succeeds and yields exactly `N` resources, indexable by
`operator[]` at local indices `0..N-1` in the map's local order with
`group[i]->get_device_id()` the `i`-th device-list entry; `size()`,
`get_total_gpu_count()` and `get_node_count()` report the map's local count,
total accelerator count and process count. -/
theorem C1_construct_yields_indexed_resources
    (enableMPI : Bool) (env : Env) (dm : DeviceMap)
    (hne : dm.device_list ≠ [])
    (hvalid : ∀ dev ∈ dm.device_list, dev < env.dev_count) :
    ∃ g evs, GPUResourceGroup.construct enableMPI env dm = (.ok g, evs) ∧
      GPUResourceGroup.size g = dm.device_list.length ∧
      g.gpu_resources_.length = dm.device_list.length ∧
      (∀ i, i < dm.device_list.length →
        ∃ r, g.getResource (i : Int) = some r ∧
          r.get_device_id = dm.device_list.getD i 0) ∧
      g.get_total_gpu_count = dm.size ∧
      g.get_node_count = dm.num_nodes := by
  refine ⟨_, _, construct_ok enableMPI env dm hne hvalid, rfl,
    buildResources_length env dm.device_list (env.allocBase + 1), ?_, rfl, rfl⟩
  intro i hi
  have hl : i < ((buildResources env dm.device_list (env.allocBase + 1)).1).length := by
    rw [buildResources_length]; exact hi
  refine ⟨(GPUResource.construct (env.streamBase + 6 * i) (dm.device_list.getD i 0)
    (env.allocBase + 1 + i)).1, ?_, rfl⟩
  unfold GPUResourceGroup.getResource
  rw [dif_pos ⟨Int.ofNat_nonneg i, by simpa using hl⟩]
  exact congrArg some (buildResources_get env dm.device_list (env.allocBase + 1) i hl)

/-- Witness for C1: the spec's scenario (devices `[0, 1]`, four visible
accelerators) satisfies the hypotheses, and the theorem applies. -/
theorem C1_witness :
    dmDemo.device_list ≠ [] ∧
    (∀ dev ∈ dmDemo.device_list, dev < envDemo.dev_count) ∧
    (∃ g evs, GPUResourceGroup.construct false envDemo dmDemo = (.ok g, evs) ∧
      GPUResourceGroup.size g = dmDemo.device_list.length ∧
      g.gpu_resources_.length = dmDemo.device_list.length ∧
      (∀ i, i < dmDemo.device_list.length →
        ∃ r, g.getResource (i : Int) = some r ∧
          r.get_device_id = dmDemo.device_list.getD i 0) ∧
      g.get_total_gpu_count = dmDemo.size ∧
      g.get_node_count = dmDemo.num_nodes) :=
  ⟨by decide, by decide,
   C1_construct_yields_indexed_resources false envDemo dmDemo (by decide) (by decide)⟩

/-- C7: `get_data_copy_stream` ignores its index argument: every pair of
indices resolves to the physical stream in slot 0 of the two-element
data-copy stream array — even though a freshly constructed resource holds two
distinct streams in the two slots. -/
theorem C7_data_copy_stream_ignores_index :
    (∀ (r : GPUResource) (i j : Int),
      r.get_data_copy_stream i = r.get_data_copy_stream j ∧
      r.get_data_copy_stream i = r.data_copy_stream_.1) ∧
    (∀ (base : Nat) (dev : Int) (comm : Nat) (i : Int),
      ((GPUResource.construct base dev comm).1).get_data_copy_stream i =
        ((GPUResource.construct base dev comm).1).data_copy_stream_.1 ∧
      ((GPUResource.construct base dev comm).1).data_copy_stream_.1 ≠
        ((GPUResource.construct base dev comm).1).data_copy_stream_.2) := by
  refine ⟨fun r i j => ⟨rfl, rfl⟩, fun base dev comm i => ⟨rfl, ?_⟩⟩
  simp [GPUResource.construct]

/-- C9: the defensive cross-checks `local_gpu_count != size()` and
`device_map->get_device_list().size() != local_gpu_count` compare the same
quantity with itself, so those two error branches are unreachable: no input
ever produces their error messages. -/
theorem C9_defensive_checks_unreachable
    (enableMPI : Bool) (env : Env) (dm : DeviceMap) (e : HCError) (evs : List Event)
    (h : GPUResourceGroup.construct enableMPI env dm = (.error e, evs)) :
    e.msg ≠ "local_gpu_count != size()" ∧
    e.msg ≠ "device_map->get_device_list().size() != local_gpu_count" := by
  unfold GPUResourceGroup.construct at h
  by_cases h0 : dm.device_list.length = 0
  · simp [h0] at h
    obtain ⟨he, -⟩ := h
    subst he
    exact ⟨by decide, by decide⟩
  · cases hf : dm.device_list.find? (fun dev => decide (env.dev_count ≤ dev)) with
    | some dev =>
      simp [h0, hf] at h
      obtain ⟨he, -⟩ := h
      subst he
      exact ⟨invalid_id_msg_ne _ _ (by decide), invalid_id_msg_ne _ _ (by decide)⟩
    | none =>
      simp [h0, hf] at h

/-- Witness for C9: applied at the concrete failing input with an empty
device list. -/
theorem C9_witness :
    GPUResourceGroup.construct false envDemo ⟨[], fun d => d, 0, 1⟩ =
      (.error ⟨.WrongInput, "Empty device_list"⟩, []) ∧
    (⟨Error_t.WrongInput, "Empty device_list"⟩ : HCError).msg ≠ "local_gpu_count != size()" ∧
    (⟨Error_t.WrongInput, "Empty device_list"⟩ : HCError).msg ≠
      "device_map->get_device_list().size() != local_gpu_count" :=
  ⟨rfl, C9_defensive_checks_unreachable false envDemo ⟨[], fun d => d, 0, 1⟩
    ⟨.WrongInput, "Empty device_list"⟩ [] rfl⟩

/-- C5: a device map with an empty local accelerator list is rejected with the
`WrongInput` error `"Empty device_list"`, and the native-call trace is empty —
no communicator, handle, or stream is created. -/
theorem C5_empty_device_list_rejected
    (enableMPI : Bool) (env : Env) (dm : DeviceMap)
    (hempty : dm.device_list = []) :
    GPUResourceGroup.construct enableMPI env dm =
      (.error ⟨.WrongInput, "Empty device_list"⟩, []) ∧
    ∀ e ∈ (GPUResourceGroup.construct enableMPI env dm).2,
      e.isNativeCreate = false := by
  have hc : GPUResourceGroup.construct enableMPI env dm =
      (.error ⟨.WrongInput, "Empty device_list"⟩, []) := by
    unfold GPUResourceGroup.construct
    simp [hempty]
  refine ⟨hc, ?_⟩
  rw [hc]
  intro e he
  cases he

/-- Witness for C5 at the concrete empty device map. -/
theorem C5_witness :
    (⟨[], fun d => d, 0, 1⟩ : DeviceMap).device_list = [] ∧
    GPUResourceGroup.construct true envDemo ⟨[], fun d => d, 0, 1⟩ =
      (.error ⟨.WrongInput, "Empty device_list"⟩, []) ∧
    (∀ e ∈ (GPUResourceGroup.construct true envDemo ⟨[], fun d => d, 0, 1⟩).2,
      e.isNativeCreate = false) :=
  ⟨rfl, C5_empty_device_list_rejected true envDemo ⟨[], fun d => d, 0, 1⟩ rfl⟩

/-- C6: when some listed accelerator id is `≥` the host's visible device
count, construction fails with the `WrongInput` error
`"Invalid device id: <dev>"` right after the `cudaGetDeviceCount` query — the
trace holds no handle, stream, or communicator creation. -/
theorem C6_invalid_device_id_rejected
    (enableMPI : Bool) (env : Env) (dm : DeviceMap)
    (hbad : ∃ dev ∈ dm.device_list, env.dev_count ≤ dev) :
    ∃ dev ∈ dm.device_list, env.dev_count ≤ dev ∧
      GPUResourceGroup.construct enableMPI env dm =
        (.error ⟨.WrongInput, "Invalid device id: " ++ toString dev⟩,
         [Event.cudaGetDeviceCount]) ∧
      ∀ e ∈ (GPUResourceGroup.construct enableMPI env dm).2,
        e.isNativeCreate = false := by
  obtain ⟨d0, hd0, hge0⟩ := hbad
  have h0 : ¬ dm.device_list.length = 0 := by
    intro hlen
    rw [List.length_eq_zero] at hlen
    rw [hlen] at hd0
    exact absurd hd0 (List.not_mem_nil d0)
  have hne : dm.device_list.find? (fun dev => decide (env.dev_count ≤ dev)) ≠ none := by
    intro hf
    rw [List.find?_eq_none] at hf
    exact hf d0 hd0 (by simpa using hge0)
  obtain ⟨dev, hfind⟩ := Option.ne_none_iff_exists'.mp hne
  have hc : GPUResourceGroup.construct enableMPI env dm =
      (.error ⟨.WrongInput, "Invalid device id: " ++ toString dev⟩,
       [Event.cudaGetDeviceCount]) := by
    unfold GPUResourceGroup.construct
    simp [h0, hfind]
  refine ⟨dev, List.mem_of_find?_eq_some hfind, by simpa using List.find?_some hfind,
    hc, ?_⟩
  rw [hc]
  intro e he
  simp at he
  subst he
  rfl

/-- Witness for C6: the spec's scenario — local accelerator id 5 on a host
with only four visible accelerators. -/
theorem C6_witness :
    (∃ dev ∈ (⟨[5], fun d => d, 1, 1⟩ : DeviceMap).device_list,
      envDemo.dev_count ≤ dev) ∧
    (∃ dev ∈ (⟨[5], fun d => d, 1, 1⟩ : DeviceMap).device_list,
      envDemo.dev_count ≤ dev ∧
      GPUResourceGroup.construct false envDemo ⟨[5], fun d => d, 1, 1⟩ =
        (.error ⟨.WrongInput, "Invalid device id: " ++ toString dev⟩,
         [Event.cudaGetDeviceCount]) ∧
      ∀ e ∈ (GPUResourceGroup.construct false envDemo ⟨[5], fun d => d, 1, 1⟩).2,
        e.isNativeCreate = false) :=
  ⟨⟨5, by decide, by decide⟩,
   C6_invalid_device_id_rejected false envDemo ⟨[5], fun d => d, 1, 1⟩
     ⟨5, by decide, by decide⟩⟩

/-- Inversion of a successful construction: the state is the one the success
path builds. -/
theorem construct_ok_inv (enableMPI : Bool) (env : Env) (dm : DeviceMap)
    (g : GPUResourceGroup) (evs : List Event)
    (h : GPUResourceGroup.construct enableMPI env dm = (.ok g, evs)) :
    g = ⟨(bootstrapComms enableMPI env dm).1, env.allocBase + 1, dm,
         (buildResources env dm.device_list (env.allocBase + 1)).1⟩ := by
  unfold GPUResourceGroup.construct at h
  by_cases h0 : dm.device_list.length = 0
  · simp [h0] at h
  · cases hf : dm.device_list.find? (fun dev => decide (env.dev_count ≤ dev)) with
    | some dev => simp [h0, hf] at h
    | none =>
      simp [h0, hf] at h
      exact h.1.symm

/-- The lookup of `operator[]` succeeds exactly on indices within bounds, given that
the resource vector has the group's reported size. -/
theorem getResource_isSome_iff (g : GPUResourceGroup) (idx : Int)
    (hlen : g.gpu_resources_.length = GPUResourceGroup.size g) :
    (g.getResource idx).isSome = true ↔
      (0 ≤ idx ∧ idx < (GPUResourceGroup.size g : Int)) := by
  unfold GPUResourceGroup.getResource
  split
  · rename_i hc
    simp only [Option.isSome_some, true_iff]
    omega
  · rename_i hc
    simp only [Option.isSome_none, Bool.false_eq_true, false_iff]
    intro hcontra
    apply hc
    omega

/-- C10: `operator[]` performs no bounds check: on a constructed group the
lookup yields a value exactly when `0 ≤ idx < size()`; outside that range the
total embedding yields no value. -/
theorem C10_index_operator_unchecked
    (enableMPI : Bool) (env : Env) (dm : DeviceMap)
    (g : GPUResourceGroup) (evs : List Event)
    (h : GPUResourceGroup.construct enableMPI env dm = (.ok g, evs)) :
    ∀ idx : Int,
      (g.getResource idx).isSome = true ↔
        (0 ≤ idx ∧ idx < (GPUResourceGroup.size g : Int)) := by
  intro idx
  have hg := construct_ok_inv enableMPI env dm g evs h
  subst hg
  exact getResource_isSome_iff _ idx
    (buildResources_length env dm.device_list (env.allocBase + 1))

/-- The group the constructor builds from `dmDemo` under `envDemo` without
MPI: both communicator slots initialized, array base address 1, and the two
resources wired to slots `1 + 0` and `1 + 1`. -/
def gDemo : GPUResourceGroup :=
  ⟨[true, true], 1, dmDemo,
   [⟨3, (4, 5), 0, 1, 2, 0, 1⟩, ⟨9, (10, 11), 6, 7, 8, 1, 2⟩]⟩

/-- The native-call trace of that construction. -/
def evsDemo : List Event :=
  [Event.cudaGetDeviceCount, Event.ncclCommInitAll 2 [0, 1],
   Event.cublasCreate 0, Event.curandCreateGenerator 0, Event.cudnnCreate 0,
   Event.cudaStreamCreate 0 3, Event.cudaStreamCreate 0 4, Event.cudaStreamCreate 0 5,
   Event.cublasCreate 1, Event.curandCreateGenerator 1, Event.cudnnCreate 1,
   Event.cudaStreamCreate 1 9, Event.cudaStreamCreate 1 10, Event.cudaStreamCreate 1 11]

/-- Witness for C10 at the constructed demo group and the out-of-range
index 5. -/
theorem C10_witness :
    GPUResourceGroup.construct false envDemo dmDemo = (.ok gDemo, evsDemo) ∧
    ((gDemo.getResource 5).isSome = true ↔
      (0 ≤ (5 : Int) ∧ (5 : Int) < (GPUResourceGroup.size gDemo : Int))) :=
  ⟨rfl, C10_index_operator_unchecked false envDemo dmDemo gDemo evsDemo rfl 5⟩

/-- C3: on every successful construction the trace splits into a bootstrap
phase (no handle/stream creation) followed by the resource-construction phase
(no communicator initialization), so every communicator slot is initialized —
`comms_` is all-`true` — before any `GPUResource` exists; each resource's
`get_nccl_ptr()` is the address `comms_.get() + i`, non-null and distinct per
local index. -/
theorem C3_comms_populated_before_resources
    (enableMPI : Bool) (env : Env) (dm : DeviceMap)
    (hne : dm.device_list ≠ [])
    (hvalid : ∀ dev ∈ dm.device_list, dev < env.dev_count) :
    ∃ g bootEvs resEvs,
      GPUResourceGroup.construct enableMPI env dm =
        (.ok g, Event.cudaGetDeviceCount :: (bootEvs ++ resEvs)) ∧
      (∀ e ∈ bootEvs, e.isResourceCreate = false) ∧
      (∀ e ∈ resEvs, e.isCommInit = false) ∧
      g.comms_ = List.replicate dm.device_list.length true ∧
      0 < g.commsBase ∧
      (∀ i, (hi : i < g.gpu_resources_.length) →
        (g.gpu_resources_.get ⟨i, hi⟩).get_nccl_ptr = g.commsBase + i) ∧
      (∀ i j, (hi : i < g.gpu_resources_.length) →
        (hj : j < g.gpu_resources_.length) → i ≠ j →
        (g.gpu_resources_.get ⟨i, hi⟩).get_nccl_ptr ≠
          (g.gpu_resources_.get ⟨j, hj⟩).get_nccl_ptr) := by
  refine ⟨_, _, _, construct_ok enableMPI env dm hne hvalid,
    bootstrapComms_events_not_create enableMPI env dm,
    fun e he => isCommInit_eq_false_of_isResourceCreate e
      (buildResources_events_create env dm.device_list (env.allocBase + 1) e he),
    ?_, Nat.succ_pos env.allocBase, ?_, ?_⟩
  · cases enableMPI <;> simp [bootstrapComms]
  · intro i hi
    rw [buildResources_get env dm.device_list (env.allocBase + 1) i hi]
    rfl
  · intro i j hi hj hij
    rw [buildResources_get env dm.device_list (env.allocBase + 1) i hi,
      buildResources_get env dm.device_list (env.allocBase + 1) j hj]
    simp only [GPUResource.construct, GPUResource.get_nccl_ptr]
    omega

/-- Witness for C3 at the demo scenario. -/
theorem C3_witness :
    dmDemo.device_list ≠ [] ∧
    (∀ dev ∈ dmDemo.device_list, dev < envDemo.dev_count) ∧
    (∃ g bootEvs resEvs,
      GPUResourceGroup.construct false envDemo dmDemo =
        (.ok g, Event.cudaGetDeviceCount :: (bootEvs ++ resEvs)) ∧
      (∀ e ∈ bootEvs, e.isResourceCreate = false) ∧
      (∀ e ∈ resEvs, e.isCommInit = false) ∧
      g.comms_ = List.replicate dmDemo.device_list.length true ∧
      0 < g.commsBase ∧
      (∀ i, (hi : i < g.gpu_resources_.length) →
        (g.gpu_resources_.get ⟨i, hi⟩).get_nccl_ptr = g.commsBase + i) ∧
      (∀ i j, (hi : i < g.gpu_resources_.length) →
        (hj : j < g.gpu_resources_.length) → i ≠ j →
        (g.gpu_resources_.get ⟨i, hi⟩).get_nccl_ptr ≠
          (g.gpu_resources_.get ⟨j, hj⟩).get_nccl_ptr)) :=
  ⟨by decide, by decide,
   C3_comms_populated_before_resources false envDemo dmDemo (by decide) (by decide)⟩

/-- A list of handle/stream creation events contains no occurrence of an
event that is not a creation. -/
theorem count_eq_zero_of_create (l : List Event)
    (hl : ∀ e ∈ l, e.isResourceCreate = true)
    (a : Event) (ha : a.isResourceCreate = false) : l.count a = 0 := by
  rw [List.count_eq_zero]
  intro hmem
  rw [hl a hmem] at ha
  cases ha

/-- The grouped-join segment contains no `ncclGroupStart`. -/
theorem count_groupStart_joins (dm : DeviceMap) (nid : Nat) (n : Nat) :
    ((List.range n).flatMap (fun i =>
      [Event.cudaSetDevice ((dm.device_list[i]?).getD 0),
       Event.ncclCommInitRank i dm.size nid
         (dm.global_id ((dm.device_list[i]?).getD 0))])).count Event.ncclGroupStart = 0 := by
  rw [List.count_eq_zero]
  intro hmem
  simp [List.mem_flatMap] at hmem

/-- The grouped-join segment contains no `ncclGroupEnd`. -/
theorem count_groupEnd_joins (dm : DeviceMap) (nid : Nat) (n : Nat) :
    ((List.range n).flatMap (fun i =>
      [Event.cudaSetDevice ((dm.device_list[i]?).getD 0),
       Event.ncclCommInitRank i dm.size nid
         (dm.global_id ((dm.device_list[i]?).getD 0))])).count Event.ncclGroupEnd = 0 := by
  rw [List.count_eq_zero]
  intro hmem
  simp [List.mem_flatMap] at hmem

/-- C2: in the MPI bootstrap, rank 0 (and only rank 0) generates the unique
identity token, the token is broadcast from root 0, and then — between one
`ncclGroupStart` and one `ncclGroupEnd`, each occurring exactly once in the
whole trace — every locally-owned accelerator joins in local index order:
`cudaSetDevice(device_list[i])` followed by `ncclCommInitRank` on slot `i`
with rank `device_map->get_global_id(device_list[i])` out of the total
accelerator count. -/
theorem C2_mpi_bootstrap_protocol (env : Env) (dm : DeviceMap)
    (hne : dm.device_list ≠ [])
    (hvalid : ∀ dev ∈ dm.device_list, dev < env.dev_count) :
    ∃ g resEvs,
      (∀ e ∈ resEvs, e.isResourceCreate = true) ∧
      GPUResourceGroup.construct true env dm =
        (.ok g,
         [Event.cudaGetDeviceCount]
           ++ (if env.mpi_rank = 0 then [Event.ncclGetUniqueId env.genToken] else [])
           ++ [Event.mpiBcast 0 (if env.mpi_rank = 0 then env.genToken else env.rootToken),
               Event.ncclGroupStart]
           ++ (List.range dm.device_list.length).flatMap (fun i =>
                [Event.cudaSetDevice (dm.device_list.getD i 0),
                 Event.ncclCommInitRank i dm.size
                   (if env.mpi_rank = 0 then env.genToken else env.rootToken)
                   (dm.global_id (dm.device_list.getD i 0))])
           ++ [Event.ncclGroupEnd]
           ++ resEvs) ∧
      (GPUResourceGroup.construct true env dm).2.count Event.ncclGroupStart = 1 ∧
      (GPUResourceGroup.construct true env dm).2.count Event.ncclGroupEnd = 1 := by
  have hc := construct_ok true env dm hne hvalid
  refine ⟨⟨(bootstrapComms true env dm).1, env.allocBase + 1, dm,
      (buildResources env dm.device_list (env.allocBase + 1)).1⟩,
    (buildResources env dm.device_list (env.allocBase + 1)).2,
    buildResources_events_create env dm.device_list (env.allocBase + 1), ?_, ?_, ?_⟩
  · rw [hc]
    by_cases hr : env.mpi_rank = 0 <;> simp [bootstrapComms, hr]
  · rw [hc]
    have h2 := count_eq_zero_of_create _
      (buildResources_events_create env dm.device_list (env.allocBase + 1))
      Event.ncclGroupStart rfl
    by_cases hr : env.mpi_rank = 0 <;>
      simp [bootstrapComms, hr, List.count_append, List.count_cons, h2,
        count_groupStart_joins dm env.genToken dm.device_list.length,
        count_groupStart_joins dm env.rootToken dm.device_list.length]
  · rw [hc]
    have h2 := count_eq_zero_of_create _
      (buildResources_events_create env dm.device_list (env.allocBase + 1))
      Event.ncclGroupEnd rfl
    by_cases hr : env.mpi_rank = 0 <;>
      simp [bootstrapComms, hr, List.count_append, List.count_cons, h2,
        count_groupEnd_joins dm env.genToken dm.device_list.length,
        count_groupEnd_joins dm env.rootToken dm.device_list.length]

/-- Witness for C2: the demo device map on rank 0 of a single-process MPI
world. -/
theorem C2_witness :
    dmDemo.device_list ≠ [] ∧
    (∀ dev ∈ dmDemo.device_list, dev < envDemo.dev_count) ∧
    (∃ g resEvs,
      (∀ e ∈ resEvs, e.isResourceCreate = true) ∧
      GPUResourceGroup.construct true envDemo dmDemo =
        (.ok g,
         [Event.cudaGetDeviceCount]
           ++ (if envDemo.mpi_rank = 0 then [Event.ncclGetUniqueId envDemo.genToken] else [])
           ++ [Event.mpiBcast 0
                 (if envDemo.mpi_rank = 0 then envDemo.genToken else envDemo.rootToken),
               Event.ncclGroupStart]
           ++ (List.range dmDemo.device_list.length).flatMap (fun i =>
                [Event.cudaSetDevice (dmDemo.device_list.getD i 0),
                 Event.ncclCommInitRank i dmDemo.size
                   (if envDemo.mpi_rank = 0 then envDemo.genToken else envDemo.rootToken)
                   (dmDemo.global_id (dmDemo.device_list.getD i 0))])
           ++ [Event.ncclGroupEnd]
           ++ resEvs) ∧
      (GPUResourceGroup.construct true envDemo dmDemo).2.count Event.ncclGroupStart = 1 ∧
      (GPUResourceGroup.construct true envDemo dmDemo).2.count Event.ncclGroupEnd = 1) :=
  ⟨by decide, by decide,
   C2_mpi_bootstrap_protocol envDemo dmDemo (by decide) (by decide)⟩

/-- The communicator-destruction loop on a failure-free environment destroys
each listed slot exactly once, in order. -/
theorem destroyCommsLoop_ok (env : DtorEnv) (idxs : List Nat) (acc : List Event)
    (h : ∀ i ∈ idxs, env.ncclFail i = none) :
    destroyCommsLoop env idxs acc = .ok (acc ++ idxs.map Event.ncclCommDestroy) := by
  induction idxs generalizing acc with
  | nil => simp [destroyCommsLoop]
  | cons i rest ih =>
    have hi : env.ncclFail i = none := h i (List.mem_cons_self i rest)
    simp only [destroyCommsLoop, hi]
    rw [ih (acc ++ [Event.ncclCommDestroy i]) (fun j hj => h j (List.mem_cons_of_mem i hj))]
    simp

/-- C4: destroying a group holding exactly one `GPUResource` issues no
`ncclCommDestroy` at all (empty teardown trace); destroying a group holding
more than one issues `ncclCommDestroy` exactly once per communicator slot, in
slot order. -/
theorem C4_comm_teardown_count (env : DtorEnv) (g : GPUResourceGroup)
    (hok : ∀ i, env.ncclFail i = none) :
    (g.gpu_resources_.length = 1 →
      GPUResourceGroup.destructor env g = .ok ([], [])) ∧
    (1 < g.gpu_resources_.length →
      GPUResourceGroup.destructor env g =
        .ok ((List.range g.gpu_resources_.length).map Event.ncclCommDestroy, [])) := by
  constructor
  · intro h1
    have hraw : GPUResourceGroup.destructorRaw env g = .ok [] := by
      unfold GPUResourceGroup.destructorRaw
      rw [if_neg (by omega)]
    unfold GPUResourceGroup.destructor
    rw [hraw]
  · intro h1
    have hraw : GPUResourceGroup.destructorRaw env g =
        .ok ((List.range g.gpu_resources_.length).map Event.ncclCommDestroy) := by
      unfold GPUResourceGroup.destructorRaw
      rw [if_pos h1, destroyCommsLoop_ok env _ [] (fun i _ => hok i)]
      simp
    unfold GPUResourceGroup.destructor
    rw [hraw]

/-- Failure-free teardown environment. -/
def dtorEnvOk : DtorEnv := ⟨none, none, none, none, none, none, fun _ => none⟩

/-- Witness for C4 at the two-resource demo group under a failure-free
teardown environment. -/
theorem C4_witness :
    (∀ i, dtorEnvOk.ncclFail i = none) ∧
    1 < gDemo.gpu_resources_.length ∧
    GPUResourceGroup.destructor dtorEnvOk gDemo =
      .ok ((List.range gDemo.gpu_resources_.length).map Event.ncclCommDestroy, []) :=
  ⟨fun _ => rfl, by decide,
   (C4_comm_teardown_count dtorEnvOk gDemo (fun _ => rfl)).2 (by decide)⟩

/-- C8: neither destructor ever propagates an error: for every teardown
environment the caller-facing result is `.ok`, and whenever the raw destructor
body throws, the caught message is exactly what is reported to the error
stream before being discarded. -/
theorem C8_destructors_never_propagate (env : DtorEnv) (r : GPUResource)
    (g : GPUResourceGroup) :
    ((GPUResource.destructor env r).isOk = true ∧
      ∀ evs m, GPUResource.destructorRaw env r = .error (evs, m) →
        GPUResource.destructor env r = .ok (evs, [m])) ∧
    ((GPUResourceGroup.destructor env g).isOk = true ∧
      ∀ evs m, GPUResourceGroup.destructorRaw env g = .error (evs, m) →
        GPUResourceGroup.destructor env g = .ok (evs, [m])) := by
  refine ⟨⟨?_, ?_⟩, ?_, ?_⟩
  · cases hraw : GPUResource.destructorRaw env r with
    | ok evs => simp [GPUResource.destructor, hraw, Except.isOk, Except.toBool]
    | error p => cases p; simp [GPUResource.destructor, hraw, Except.isOk, Except.toBool]
  · intro evs m hraw
    simp [GPUResource.destructor, hraw]
  · cases hraw : GPUResourceGroup.destructorRaw env g with
    | ok evs => simp [GPUResourceGroup.destructor, hraw, Except.isOk, Except.toBool]
    | error p => cases p; simp [GPUResourceGroup.destructor, hraw, Except.isOk, Except.toBool]
  · intro evs m hraw
    simp [GPUResourceGroup.destructor, hraw]

/-- A teardown environment where the cuBLAS handle destruction and every
communicator destruction fail. -/
def dtorEnvFail : DtorEnv :=
  ⟨some "cublasDestroy failed", none, none, none, none, none,
   fun _ => some "ncclCommDestroy failed"⟩

/-- The first resource of the demo group, used to exercise the destructor. -/
def rDemo : GPUResource := ⟨3, (4, 5), 0, 1, 2, 0, 1⟩

/-- Witness for C8 on a failing teardown environment: the resource destructor
still returns `.ok`, with the thrown message logged. -/
theorem C8_witness :
    (GPUResource.destructor dtorEnvFail rDemo).isOk = true ∧
    GPUResource.destructor dtorEnvFail rDemo =
      .ok ([Event.cublasDestroy], ["cublasDestroy failed"]) ∧
    (GPUResourceGroup.destructor dtorEnvFail gDemo).isOk = true :=
  ⟨(C8_destructors_never_propagate dtorEnvFail rDemo gDemo).1.1,
   (C8_destructors_never_propagate dtorEnvFail rDemo gDemo).1.2
     [Event.cublasDestroy] "cublasDestroy failed" rfl,
   (C8_destructors_never_propagate dtorEnvFail rDemo gDemo).2.1⟩

end HugeCTR
